import Mathlib

/-!
Shallow embedding of the saberrs Sabertooth 2x60 "Packet Serial" protocol
layer (src/utils.rs, src/error.rs, src/sabertooth2x60/packetserial.rs,
src/sabertooth2x60/mod.rs) and proofs about it.

Machine integers are embedded as `Nat` (unsigned) or `Int` (signed), with
explicit reduction modulo 2^8 / 2^16 / 2^32 exactly where the Rust types
would wrap (release-profile overflow semantics).  A Rust integer division,
which panics on a zero divisor, is embedded as an `Option`-valued
operation returning `none` on the zero divisor; operations of the encoder
that could in principle reach such a division report the distinguished
outcome `panicked`.
-/

namespace Saberrs

/-- Error values of the crate (src/error.rs): the claims only distinguish
the `InvalidInput` kind from wrapped transport failures, so the embedding
keeps exactly those two constructors, each carrying the description
string. -/
inductive Error where
  | invalidInput (description : String)
  | transport (description : String)
deriving Repr, DecidableEq

/-- Result of one encoder operation: success, a crate `Error`, or a Rust
panic (only reachable through a division by zero inside `map_range`). -/
inductive Outcome where
  | ok
  | err (e : Error)
  | panicked
deriving Repr, DecidableEq

/-- Embedding of `utils::checksum`: sums the bytes as `u32` (wrapping, so
modulo 2^32) and masks with `& 0x7f`. -/
def checksum (data : List Nat) : Nat :=
  (data.foldl (fun a b => (a + b) % 4294967296) 0) &&& 0x7f

/-- Embedding of `utils::map_range` at a signed-integer instantiation.
The Rust function is generic; the arithmetic is the caller's, and Rust
signed integer division truncates toward zero, hence `Int.tdiv`. -/
def map_range (from_range to_range : Int × Int) (s : Int) : Int :=
  to_range.1 + Int.tdiv ((s - from_range.1) * (to_range.2 - to_range.1)) (from_range.2 - from_range.1)

/-- Wrapping u8 subtraction, for the `u8` instantiation of `map_range`. -/
def sub8 (a b : Nat) : Nat :=
  (a % 256 + 256 - b % 256) % 256

/-- Wrapping u16 subtraction, for the `u16` instantiation of `map_range`. -/
def sub16 (a b : Nat) : Nat :=
  (a % 65536 + 65536 - b % 65536) % 65536

/-- Embedding of `utils::map_range` instantiated at `T = u8`, as used by
`set_ramping` and `set_deadband`: every `+`, `-`, `*` wraps modulo 2^8 and
the division panics (`none`) when `from_range.1 - from_range.0` is zero. -/
def map_range_u8 (from_range to_range : Nat × Nat) (s : Nat) : Option Nat :=
  if sub8 from_range.2 from_range.1 = 0 then none
  else some ((to_range.1 % 256 +
    (sub8 s from_range.1 * sub8 to_range.2 to_range.1) % 256 / sub8 from_range.2 from_range.1) % 256)

/-- Embedding of `utils::map_range` instantiated at `T = u16`, as used by
`set_serial_timeout`: arithmetic wraps modulo 2^16 and the division panics
(`none`) on a zero-width source range. -/
def map_range_u16 (from_range to_range : Nat × Nat) (s : Nat) : Option Nat :=
  if sub16 from_range.2 from_range.1 = 0 then none
  else some ((to_range.1 % 65536 +
    (sub16 s from_range.1 * sub16 to_range.2 to_range.1) % 65536 / sub16 from_range.2 from_range.1) % 65536)

/-- Embedding of a Rust `i8 as u8` cast: two's-complement reinterpretation,
i.e. the representative of the value modulo 256 in 0..255. -/
def i8_as_u8 (x : Int) : Nat :=
  (x % 256).toNat

/-- Modelled from the spec: the Transport Capability (`crate::port::
SabertoothSerial`, whose definition is not under src/).  Per the spec it is
an abstract duplex byte stream supporting `write(bytes)` and a
`reconfigure_baud_rate` operation, each returning success or a transport
error.  The embedding records the frames written in order and the current
baud rate; the two `fail` flags choose whether the corresponding operation
reports a transport error. -/
structure SabertoothSerial where
  writes : List (List Nat)
  baud : Nat
  failWrites : Bool
  failSetBaud : Bool
deriving Repr, DecidableEq

/-- Modelled from the spec: `write_all` on the transport either fails with
a transport error (leaving the stream unchanged) or appends the frame. -/
def SabertoothSerial.write_all (dev : SabertoothSerial) (frame : List Nat) :
    Except Error SabertoothSerial :=
  if dev.failWrites then Except.error (Error.transport "write error")
  else Except.ok { dev with writes := dev.writes ++ [frame] }

/-- Modelled from the spec: reconfiguring the transport baud rate either
fails with a transport error or records the new rate. -/
def SabertoothSerial.set_baud_rate (dev : SabertoothSerial) (rate : Nat) :
    Except Error SabertoothSerial :=
  if dev.failSetBaud then Except.error (Error.transport "set baud rate error")
  else Except.ok { dev with baud := rate }

/-- Default address for packet communication (packetserial.rs). -/
def DEFAULT_ADDRESS : Nat := 128

/-- Maximum accepted serial timeout in milliseconds (packetserial.rs). -/
def MAX_SERIAL_TIMEOUT_MS : Nat := 12700

/-- Embedding of `PacketSerial`: a transport handle and a device address. -/
structure PacketSerial where
  dev : SabertoothSerial
  address : Nat
deriving Repr, DecidableEq

/-- Embedding of `PacketSerial::with_address`. -/
def PacketSerial.with_address (s : PacketSerial) (address : Nat) : PacketSerial :=
  { s with address := address }

/-- Embedding of the private `PacketSerial::write`: builds the 4-byte frame
`[address, command, data, checksum]` and writes it to the transport.  The
Rust method mutates `self` and returns `Result<()>`; the embedding returns
the outcome together with the (possibly updated) state. -/
def PacketSerial.write (s : PacketSerial) (command data : Nat) :
    Outcome × PacketSerial :=
  let txdata := [s.address, command, data, checksum [s.address, command, data]]
  match s.dev.write_all txdata with
  | Except.ok d => (Outcome.ok, { s with dev := d })
  | Except.error e => (Outcome.err e, s)

/-- State obtained from `s` by appending the frame `write` builds for
`command` and `data`; abbreviation used by the theorems below. -/
def push_frame (s : PacketSerial) (command data : Nat) : PacketSerial :=
  { s with dev := { s.dev with
      writes := s.dev.writes ++ [[s.address, command, data, checksum [s.address, command, data]]] } }

/-- State obtained from `s` by changing the transport baud rate field. -/
def set_dev_baud (s : PacketSerial) (b : Nat) : PacketSerial :=
  { s with dev := { s.dev with baud := b } }

/-- Embedding of the private `PacketSerial::write_motor_command`. -/
def PacketSerial.write_motor_command (s : PacketSerial)
    (forward_command backward_command : Nat) (value : Int) :
    Outcome × PacketSerial :=
  if 0 ≤ value then s.write forward_command (i8_as_u8 (min 127 value))
  else s.write backward_command (i8_as_u8 (-(max (-127) value)))

/-- Embedding of `set_serial_timeout` (packetserial.rs): validates the
bound, computes tenth-second units in u16 arithmetic, maps them through
`map_range` at u16, casts the data to u8 and writes command 14. -/
def PacketSerial.set_serial_timeout (s : PacketSerial) (ms : Nat) :
    Outcome × PacketSerial :=
  if MAX_SERIAL_TIMEOUT_MS < ms then
    (Outcome.err (Error.invalidInput "timeout must be less than or equal to 12700"), s)
  else
    let units := if 0 < ms ∧ ms < 100 then 1 else ms / 100
    match map_range_u16 (0, MAX_SERIAL_TIMEOUT_MS) (0, 127) units with
    | none => (Outcome.panicked, s)
    | some data => s.write 14 (data % 256)

/-- Discrete lookup of the wire data code in `set_baud_rate`
(packetserial.rs): the match arms 2400..115200 give codes 1..5 and every
other value falls to the InvalidInput arm, rendered as `none`. -/
def baud_to_code (baud_rate : Nat) : Option Nat :=
  if baud_rate = 2400 then some 1
  else if baud_rate = 9600 then some 2
  else if baud_rate = 19200 then some 3
  else if baud_rate = 38400 then some 4
  else if baud_rate = 115200 then some 5
  else none

/-- Tail of `set_baud_rate` (packetserial.rs): `self.write(15, data)?` then
`self.dev.set_baud_rate(baud_rate)`; the `?` short-circuits a failed frame
write before the transport reconfiguration. -/
def write_then_set_baud (s : PacketSerial) (data baud_rate : Nat) :
    Outcome × PacketSerial :=
  match s.write 15 data with
  | (Outcome.ok, s1) =>
    match s1.dev.set_baud_rate baud_rate with
    | Except.ok d => (Outcome.ok, { s1 with dev := d })
    | Except.error e => (Outcome.err e, s1)
  | r => r

/-- Embedding of `set_baud_rate` (packetserial.rs): discrete lookup of the
data code, write of command 15, then reconfiguration of the transport baud
rate. -/
def PacketSerial.set_baud_rate (s : PacketSerial) (baud_rate : Nat) :
    Outcome × PacketSerial :=
  match baud_to_code baud_rate with
  | none => (Outcome.err (Error.invalidInput "invalid baud rate"), s)
  | some data => write_then_set_baud s data baud_rate

/-- Embedding of `set_ramping` (packetserial.rs): `map_range` at u8 from
(0, 255) to (0, 80), then write of command 16. -/
def PacketSerial.set_ramping (s : PacketSerial) (rate : Nat) :
    Outcome × PacketSerial :=
  match map_range_u8 (0, 255) (0, 80) rate with
  | none => (Outcome.panicked, s)
  | some data => s.write 16 data

/-- Embedding of `set_deadband` (packetserial.rs): `map_range` at u8 from
(0, 255) to (0, 127), then write of command 17. -/
def PacketSerial.set_deadband (s : PacketSerial) (deadband : Nat) :
    Outcome × PacketSerial :=
  match map_range_u8 (0, 255) (0, 127) deadband with
  | none => (Outcome.panicked, s)
  | some data => s.write 17 data

/-- Embedding of `drive_m1`. -/
def PacketSerial.drive_m1 (s : PacketSerial) (value : Int) : Outcome × PacketSerial :=
  s.write_motor_command 0 1 value

/-- Embedding of `drive_m2`. -/
def PacketSerial.drive_m2 (s : PacketSerial) (value : Int) : Outcome × PacketSerial :=
  s.write_motor_command 4 5 value

/-- Embedding of `drive_mixed`. -/
def PacketSerial.drive_mixed (s : PacketSerial) (value : Int) : Outcome × PacketSerial :=
  s.write_motor_command 8 9 value

/-- Embedding of `turn_mixed`. -/
def PacketSerial.turn_mixed (s : PacketSerial) (value : Int) : Outcome × PacketSerial :=
  s.write_motor_command 10 11 value

/-- Modelled from the spec: `set_min_voltage` of the packet encoder.  Its
implementation is not under src/ (src/sabertooth2x60/mod.rs only declares
it on the `Sabertooth2x60` trait); per the spec table its wire mapping is
the identity, the raw `units` byte written as the data byte.  The spec does
not fix the command code, so it is a parameter. -/
def PacketSerial.set_min_voltage (s : PacketSerial) (command units : Nat) :
    Outcome × PacketSerial :=
  s.write command units

/-- Modelled from the spec: `set_max_voltage` of the packet encoder, the
same identity wire mapping as `set_min_voltage` (implementation not under
src/; command code left as a parameter). -/
def PacketSerial.set_max_voltage (s : PacketSerial) (command units : Nat) :
    Outcome × PacketSerial :=
  s.write command units

/-- Predicate used for the address/frame invariant: after the operation the
address field is unchanged and the transport saw either no new frame or
exactly one new frame whose first byte is the configured address. -/
def preserves_address (s : PacketSerial) (r : Outcome × PacketSerial) : Prop :=
  r.2.address = s.address ∧
  (r.2.dev.writes = s.dev.writes ∨
    ∃ c d k, r.2.dev.writes = s.dev.writes ++ [[s.address, c, d, k]])

/-- Concrete healthy encoder state used by witnesses. -/
def s0 : PacketSerial :=
  { dev := { writes := [], baud := 9600, failWrites := false, failSetBaud := false },
    address := DEFAULT_ADDRESS }

/-- Concrete encoder state whose transport fails every write. -/
def sFail : PacketSerial :=
  { dev := { writes := [], baud := 9600, failWrites := true, failSetBaud := false },
    address := DEFAULT_ADDRESS }

/-- Helper: a write on a healthy transport succeeds and appends one frame. -/
theorem write_ok (s : PacketSerial) (c d : Nat) (hw : s.dev.failWrites = false) :
    s.write c d = (Outcome.ok, push_frame s c d) := by
  simp [PacketSerial.write, SabertoothSerial.write_all, push_frame, hw]

/-- Helper: a write on a failing transport reports a transport error and
leaves the state untouched. -/
theorem write_fail (s : PacketSerial) (c d : Nat) (hw : s.dev.failWrites = true) :
    s.write c d = (Outcome.err (Error.transport "write error"), s) := by
  simp [PacketSerial.write, SabertoothSerial.write_all, hw]

/-- Helper: on three bytes the checksum is the plain sum modulo 128. -/
theorem checksum_three (a c d : Nat) (ha : a < 256) (hc : c < 256) (hd : d < 256) :
    checksum [a, c, d] = (a + c + d) % 128 := by
  unfold checksum
  simp only [List.foldl]
  have e : ((((0 + a) % 4294967296) + c) % 4294967296 + d) % 4294967296 = a + c + d := by
    omega
  rw [e]
  exact Nat.and_pow_two_sub_one_eq_mod (a + c + d) 7

/-- C1: each motor operation encodes by sign: for value ≥ 0 it writes its
forward command code (0, 4, 8, 10 for drive_m1, drive_m2, drive_mixed,
turn_mixed) with data byte min(127, value); for value < 0 it writes its
backward command code (1, 5, 9, 11) with data byte -(max(-127, value)); the
data byte is always in 0..127, and at value = -128 the data byte is 127. -/
theorem motor_commands_encode_by_sign (v : Int) (s : PacketSerial)
    (h1 : -128 ≤ v) (h2 : v ≤ 127) (hw : s.dev.failWrites = false) :
    ∃ d : Nat, d ≤ 127 ∧
      (0 ≤ v →
        (d : Int) = min 127 v ∧
        s.drive_m1 v = (Outcome.ok, push_frame s 0 d) ∧
        s.drive_m2 v = (Outcome.ok, push_frame s 4 d) ∧
        s.drive_mixed v = (Outcome.ok, push_frame s 8 d) ∧
        s.turn_mixed v = (Outcome.ok, push_frame s 10 d)) ∧
      (v < 0 →
        (d : Int) = -(max (-127) v) ∧
        s.drive_m1 v = (Outcome.ok, push_frame s 1 d) ∧
        s.drive_m2 v = (Outcome.ok, push_frame s 5 d) ∧
        s.drive_mixed v = (Outcome.ok, push_frame s 9 d) ∧
        s.turn_mixed v = (Outcome.ok, push_frame s 11 d)) ∧
      (v = -128 → d = 127) := by
  by_cases hv : 0 ≤ v
  · have hlo : (0 : Int) ≤ min 127 v := by omega
    have hhi : min 127 v < 256 := by omega
    have hcast : i8_as_u8 (min 127 v) = (min 127 v).toNat := by
      unfold i8_as_u8
      rw [Int.emod_eq_of_lt hlo (by omega)]
    refine ⟨(min 127 v).toNat, by omega, fun _ => ?_, fun hneg => absurd hv (by omega), fun h => by omega⟩
    have hd : ((min 127 v).toNat : Int) = min 127 v := Int.toNat_of_nonneg hlo
    refine ⟨hd, ?_, ?_, ?_, ?_⟩ <;>
      simp only [PacketSerial.drive_m1, PacketSerial.drive_m2, PacketSerial.drive_mixed,
        PacketSerial.turn_mixed, PacketSerial.write_motor_command, if_pos hv, hcast] <;>
      exact write_ok s _ _ hw
  · have hlo : (0 : Int) ≤ -(max (-127) v) := by omega
    have hhi : -(max (-127) v) < 256 := by omega
    have hcast : i8_as_u8 (-(max (-127) v)) = (-(max (-127) v)).toNat := by
      unfold i8_as_u8
      rw [Int.emod_eq_of_lt hlo (by omega)]
    refine ⟨(-(max (-127) v)).toNat, by omega, fun hpos => absurd hpos hv, fun _ => ?_, fun h => by omega⟩
    have hd : ((-(max (-127) v)).toNat : Int) = -(max (-127) v) := Int.toNat_of_nonneg hlo
    refine ⟨hd, ?_, ?_, ?_, ?_⟩ <;>
      simp only [PacketSerial.drive_m1, PacketSerial.drive_m2, PacketSerial.drive_mixed,
        PacketSerial.turn_mixed, PacketSerial.write_motor_command, if_neg hv, hcast] <;>
      exact write_ok s _ _ hw

/-- C1 witness: at value -128 on a concrete healthy state, drive_m1 writes
backward command code 1 with data byte 127. -/
theorem motor_commands_encode_by_sign_witness :
    s0.drive_m1 (-128) = (Outcome.ok, push_frame s0 1 127) := by
  obtain ⟨d, _, _, hneg, h128⟩ :=
    motor_commands_encode_by_sign (-128) s0 (by decide) (by decide) rfl
  obtain ⟨_, hm1, _⟩ := hneg (by decide)
  rw [h128 rfl] at hm1
  exact hm1

/-- C7: map_range is the affine transform
to_low + (value - from_low) * (to_high - to_low) / (from_high - from_low)
in the instantiating domain, with signed integer division truncating toward
zero; over the i32 examples, mapping (-128, 127) to (204, 409) sends -128 to
204, 0 to 306 and 127 to 409, and a negative intermediate value truncates
toward zero (tdiv), not toward negative infinity. -/
theorem map_range_is_affine (f t : Int × Int) (x : Int) :
    map_range f t x = t.1 + Int.tdiv ((x - f.1) * (t.2 - t.1)) (f.2 - f.1) ∧
    map_range (-128, 127) (204, 409) (-128) = 204 ∧
    map_range (-128, 127) (204, 409) 0 = 306 ∧
    map_range (-128, 127) (204, 409) 127 = 409 ∧
    map_range (0, 255) (0, -100) 3 = -1 :=
  ⟨rfl, by decide, by decide, by decide, by decide⟩

/-- Predicate for the frame-shape property: if the operation reported
success, the transport saw exactly one new frame, of exactly 4 bytes
[address, command, data, checksum], whose last byte is the sum of the
first three reduced modulo 128. -/
def writes_one_checked_frame (s : PacketSerial) (r : Outcome × PacketSerial) : Prop :=
  r.1 = Outcome.ok →
    ∃ c d, c < 256 ∧ d < 256 ∧
      r.2.dev.writes = s.dev.writes ++ [[s.address, c, d, (s.address + c + d) % 128]]

/-- Helper: an operation that reported an error wrote nothing new to prove
about. -/
theorem wof_err (s : PacketSerial) (e : Error) (s1 : PacketSerial) :
    writes_one_checked_frame s (Outcome.err e, s1) :=
  fun h => nomatch h

/-- Helper: an operation that panicked is vacuous for the frame shape. -/
theorem wof_panic (s s1 : PacketSerial) :
    writes_one_checked_frame s (Outcome.panicked, s1) :=
  fun h => nomatch h

/-- Helper: a two's-complement reinterpreted i8 is a byte. -/
theorem i8_as_u8_lt (x : Int) : i8_as_u8 x < 256 := by
  unfold i8_as_u8
  have h1 := Int.emod_nonneg x (by norm_num : (256 : Int) ≠ 0)
  have h2 := Int.emod_lt_of_pos x (by norm_num : (0 : Int) < 256)
  omega

/-- Helper: a value produced by the u8 map_range is a byte. -/
theorem map_range_u8_some_lt (f t : Nat × Nat) (x v : Nat)
    (h : map_range_u8 f t x = some v) : v < 256 := by
  unfold map_range_u8 at h
  split at h
  · exact absurd h (by simp)
  · injection h with h2
    omega

/-- Helper: the baud lookup only produces the codes 1..5, all bytes. -/
theorem baud_to_code_lt (b d : Nat) (h : baud_to_code b = some d) : d < 256 := by
  unfold baud_to_code at h
  split_ifs at h <;> injection h with h2 <;> omega

/-- Helper: unfolding equation of set_serial_timeout with its let-bound
units inlined. -/
theorem set_serial_timeout_eq (s : PacketSerial) (ms : Nat) :
    s.set_serial_timeout ms =
      if MAX_SERIAL_TIMEOUT_MS < ms then
        (Outcome.err (Error.invalidInput "timeout must be less than or equal to 12700"), s)
      else
        match map_range_u16 (0, MAX_SERIAL_TIMEOUT_MS) (0, 127)
            (if 0 < ms ∧ ms < 100 then 1 else ms / 100) with
        | none => (Outcome.panicked, s)
        | some data => s.write 14 (data % 256) := rfl

/-- Helper: the baud tail on a failing transport reports the write error
and leaves the state untouched. -/
theorem wtsb_write_fail (s : PacketSerial) (data baud : Nat)
    (hfw : s.dev.failWrites = true) :
    write_then_set_baud s data baud = (Outcome.err (Error.transport "write error"), s) := by
  unfold write_then_set_baud
  rw [write_fail s 15 data hfw]

/-- Helper: the baud tail on a healthy transport writes the frame and then
records the new baud rate. -/
theorem wtsb_ok (s : PacketSerial) (data baud : Nat)
    (hfw : s.dev.failWrites = false) (hsb : s.dev.failSetBaud = false) :
    write_then_set_baud s data baud =
      (Outcome.ok, set_dev_baud (push_frame s 15 data) baud) := by
  unfold write_then_set_baud
  rw [write_ok s 15 data hfw]
  simp [SabertoothSerial.set_baud_rate, push_frame, set_dev_baud, hsb]

/-- Helper: the baud tail satisfies the frame-shape property. -/
theorem wtsb_wof (s : PacketSerial) (data baud : Nat)
    (hd : data < 256) (ha : s.address < 256) :
    writes_one_checked_frame s (write_then_set_baud s data baud) := by
  cases hfw : s.dev.failWrites with
  | true =>
      rw [wtsb_write_fail s data baud hfw]
      exact wof_err s _ s
  | false =>
      cases hsb : s.dev.failSetBaud with
      | false =>
          rw [wtsb_ok s data baud hfw hsb]
          intro _
          refine ⟨15, data, by norm_num, hd, ?_⟩
          simp [set_dev_baud, push_frame, checksum_three s.address 15 data ha (by norm_num) hd]
      | true =>
          unfold write_then_set_baud
          rw [write_ok s 15 data hfw]
          have hsb1 : (push_frame s 15 data).dev.failSetBaud = true := by
            simp [push_frame, hsb]
          simp only [SabertoothSerial.set_baud_rate, hsb1, if_true]
          exact wof_err s _ _

/-- Helper: the direct frame write satisfies the frame-shape property. -/
theorem write_frame_ok (s : PacketSerial) (c d : Nat)
    (hc : c < 256) (hd : d < 256) (ha : s.address < 256) :
    writes_one_checked_frame s (s.write c d) := by
  intro h
  cases hfw : s.dev.failWrites with
  | false =>
      rw [write_ok s c d hfw]
      refine ⟨c, d, hc, hd, ?_⟩
      simp [push_frame, checksum_three s.address c d ha hc hd]
  | true =>
      rw [write_fail s c d hfw] at h
      exact absurd h (by simp)

/-- C2: every successful command operation writes exactly one 4-byte frame
[address, command, data, checksum] where the checksum byte is the unsigned
sum of exactly the first three bytes masked to the low 7 bits; and the pure
checksum function maps [0x80, 0x81, 0x04, 0x07, 0x09] to 0x15. -/
theorem frames_are_4_bytes_with_checksum (s : PacketSerial) (ha : s.address < 256)
    (ms baud rate deadband cmd units : Nat) (v : Int)
    (hcmd : cmd < 256) (hunits : units < 256) :
    checksum [0x80, 0x81, 0x04, 0x07, 0x09] = 0x15 ∧
    (∀ a c d : Nat, a < 256 → c < 256 → d < 256 →
      checksum [a, c, d] = (a + c + d) % 128) ∧
    writes_one_checked_frame s (s.set_serial_timeout ms) ∧
    writes_one_checked_frame s (s.set_baud_rate baud) ∧
    writes_one_checked_frame s (s.set_ramping rate) ∧
    writes_one_checked_frame s (s.set_deadband deadband) ∧
    writes_one_checked_frame s (s.drive_m1 v) ∧
    writes_one_checked_frame s (s.drive_m2 v) ∧
    writes_one_checked_frame s (s.drive_mixed v) ∧
    writes_one_checked_frame s (s.turn_mixed v) ∧
    writes_one_checked_frame s (s.set_min_voltage cmd units) ∧
    writes_one_checked_frame s (s.set_max_voltage cmd units) := by
  refine ⟨by decide, checksum_three, ?_, ?_, ?_, ?_, ?_, ?_, ?_, ?_, ?_, ?_⟩
  · rw [set_serial_timeout_eq]
    split
    · exact wof_err s _ s
    · rcases hmr : map_range_u16 (0, MAX_SERIAL_TIMEOUT_MS) (0, 127)
          (if 0 < ms ∧ ms < 100 then 1 else ms / 100) with _ | data
      · exact wof_panic s s
      · exact write_frame_ok s 14 (data % 256) (by norm_num) (Nat.mod_lt _ (by norm_num)) ha
  · unfold PacketSerial.set_baud_rate
    rcases hbc : baud_to_code baud with _ | data
    · exact wof_err s _ s
    · exact wtsb_wof s data baud (baud_to_code_lt baud data hbc) ha
  · unfold PacketSerial.set_ramping
    split
    · exact wof_panic s s
    · rename_i data hdata
      exact write_frame_ok s 16 data (by norm_num) (map_range_u8_some_lt _ _ _ _ hdata) ha
  · unfold PacketSerial.set_deadband
    split
    · exact wof_panic s s
    · rename_i data hdata
      exact write_frame_ok s 17 data (by norm_num) (map_range_u8_some_lt _ _ _ _ hdata) ha
  · unfold PacketSerial.drive_m1 PacketSerial.write_motor_command
    split
    · exact write_frame_ok s 0 _ (by norm_num) (i8_as_u8_lt _) ha
    · exact write_frame_ok s 1 _ (by norm_num) (i8_as_u8_lt _) ha
  · unfold PacketSerial.drive_m2 PacketSerial.write_motor_command
    split
    · exact write_frame_ok s 4 _ (by norm_num) (i8_as_u8_lt _) ha
    · exact write_frame_ok s 5 _ (by norm_num) (i8_as_u8_lt _) ha
  · unfold PacketSerial.drive_mixed PacketSerial.write_motor_command
    split
    · exact write_frame_ok s 8 _ (by norm_num) (i8_as_u8_lt _) ha
    · exact write_frame_ok s 9 _ (by norm_num) (i8_as_u8_lt _) ha
  · unfold PacketSerial.turn_mixed PacketSerial.write_motor_command
    split
    · exact write_frame_ok s 10 _ (by norm_num) (i8_as_u8_lt _) ha
    · exact write_frame_ok s 11 _ (by norm_num) (i8_as_u8_lt _) ha
  · exact write_frame_ok s cmd units hcmd hunits ha
  · exact write_frame_ok s cmd units hcmd hunits ha

/-- C2 witness: the checksum example, extracted from the frame theorem
applied at a concrete healthy state and concrete inputs. -/
theorem frames_are_4_bytes_with_checksum_witness :
    checksum [0x80, 0x81, 0x04, 0x07, 0x09] = 0x15 :=
  (frames_are_4_bytes_with_checksum s0 (by decide) 0 9600 0 0 2 200 0
    (by decide) (by decide)).1

/-- Helper: the u16 map_range call of set_serial_timeout, on units up to
127, computes units * 127 / 12700 with no u16 wraparound. -/
theorem map_range_u16_timeout (u : Nat) (hu : u ≤ 127) :
    map_range_u16 (0, MAX_SERIAL_TIMEOUT_MS) (0, 127) u = some (u * 127 / 12700) := by
  have h1 : u % 65536 = u := Nat.mod_eq_of_lt (by omega)
  have h2 : u * 127 % 65536 = u * 127 := Nat.mod_eq_of_lt (by omega)
  have h3 : u * 127 / 12700 < 65536 := by omega
  unfold map_range_u16 sub16 MAX_SERIAL_TIMEOUT_MS
  norm_num [h1, h2]
  omega

/-- C3: set_serial_timeout fails with InvalidInput and leaves the state
(hence the transport write log) untouched whenever ms exceeds 12700; for
ms up to 12700 it writes command code 14 whose data byte is units * 127 /
12700, where units is 1 for 1 ≤ ms ≤ 99 and ms / 100 otherwise. -/
theorem set_serial_timeout_validates_and_maps (ms : Nat) (s : PacketSerial)
    (hms : ms < 65536) :
    (MAX_SERIAL_TIMEOUT_MS < ms →
      s.set_serial_timeout ms =
        (Outcome.err (Error.invalidInput "timeout must be less than or equal to 12700"), s)) ∧
    (ms ≤ MAX_SERIAL_TIMEOUT_MS → s.dev.failWrites = false →
      s.set_serial_timeout ms =
        (Outcome.ok,
          push_frame s 14 ((if 1 ≤ ms ∧ ms ≤ 99 then 1 else ms / 100) * 127 / 12700))) := by
  constructor
  · intro h
    rw [set_serial_timeout_eq, if_pos h]
  · intro h hw
    rw [set_serial_timeout_eq, if_neg (by omega : ¬ MAX_SERIAL_TIMEOUT_MS < ms)]
    have hiff : (0 < ms ∧ ms < 100) ↔ (1 ≤ ms ∧ ms ≤ 99) := by omega
    rw [if_congr hiff rfl rfl]
    have hu : (if 1 ≤ ms ∧ ms ≤ 99 then 1 else ms / 100) ≤ 127 := by
      split
      · omega
      · unfold MAX_SERIAL_TIMEOUT_MS at h
        omega
    rw [map_range_u16_timeout _ hu]
    show s.write 14 ((if 1 ≤ ms ∧ ms ≤ 99 then 1 else ms / 100) * 127 / 12700 % 256) = _
    rw [Nat.mod_eq_of_lt (by omega)]
    exact write_ok s 14 _ hw

/-- C3 witness: at a concrete healthy state, set_serial_timeout(13000)
fails InvalidInput writing nothing, and set_serial_timeout(250) writes
command 14 with data 2 * 127 / 12700 = 0. -/
theorem set_serial_timeout_validates_and_maps_witness :
    s0.set_serial_timeout 13000 =
      (Outcome.err (Error.invalidInput "timeout must be less than or equal to 12700"), s0) ∧
    s0.set_serial_timeout 250 = (Outcome.ok, push_frame s0 14 0) := by
  constructor
  · exact (set_serial_timeout_validates_and_maps 13000 s0 (by norm_num)).1 (by decide)
  · have h := (set_serial_timeout_validates_and_maps 250 s0 (by norm_num)).2 (by decide) rfl
    have e : (if 1 ≤ 250 ∧ 250 ≤ 99 then 1 else 250 / 100) * 127 / 12700 = 0 := by norm_num
    rw [e] at h
    exact h

/-- C4: evaluating the code at the failing inputs: the u8 instantiation of
map_range wraps (255 - 0) * (80 - 0) modulo 256 to 176, so set_ramping(255)
writes data byte 176 / 255 = 0 rather than 80, and set_deadband(255)
writes data byte 129 / 255 = 0 rather than 127. -/
theorem set_ramping_and_deadband_wrap_at_255 :
    s0.set_ramping 255 = (Outcome.ok, push_frame s0 16 0) ∧
    s0.set_deadband 255 = (Outcome.ok, push_frame s0 17 0) ∧
    map_range_u8 (0, 255) (0, 80) 255 = some 0 ∧
    map_range_u8 (0, 255) (0, 127) 255 = some 0 :=
  ⟨by decide, by decide, by decide, by decide⟩

/-- Helper: set_baud_rate on a recognised baud value, in terms of the
looked-up code. -/
theorem sbr_valid (s : PacketSerial) (baud code : Nat)
    (hbc : baud_to_code baud = some code) :
    (s.dev.failWrites = true →
      s.set_baud_rate baud = (Outcome.err (Error.transport "write error"), s)) ∧
    (s.dev.failWrites = false → s.dev.failSetBaud = false →
      s.set_baud_rate baud = (Outcome.ok, set_dev_baud (push_frame s 15 code) baud)) := by
  constructor
  · intro hfw
    unfold PacketSerial.set_baud_rate
    rw [hbc]
    exact wtsb_write_fail s code baud hfw
  · intro hfw hsb
    unfold PacketSerial.set_baud_rate
    rw [hbc]
    exact wtsb_ok s code baud hfw hsb

/-- C5: for a baud value outside {2400, 9600, 19200, 38400, 115200},
set_baud_rate fails with InvalidInput and the state (hence the write log
and the transport baud rate) is untouched; for a value in the set it writes
command code 15 with the lookup code (2400 to 1, 9600 to 2, 19200 to 3,
38400 to 4, 115200 to 5); if that frame write fails the state, including
the transport baud rate, is untouched, and only on a successful frame write
is the transport baud rate reconfigured. -/
theorem set_baud_rate_validates_and_reconfigures (s : PacketSerial) (baud : Nat) :
    (baud ≠ 2400 ∧ baud ≠ 9600 ∧ baud ≠ 19200 ∧ baud ≠ 38400 ∧ baud ≠ 115200 →
      s.set_baud_rate baud = (Outcome.err (Error.invalidInput "invalid baud rate"), s)) ∧
    (∀ code : Nat,
      (baud = 2400 ∧ code = 1) ∨ (baud = 9600 ∧ code = 2) ∨ (baud = 19200 ∧ code = 3) ∨
        (baud = 38400 ∧ code = 4) ∨ (baud = 115200 ∧ code = 5) →
      (s.dev.failWrites = true →
        s.set_baud_rate baud = (Outcome.err (Error.transport "write error"), s)) ∧
      (s.dev.failWrites = false → s.dev.failSetBaud = false →
        s.set_baud_rate baud = (Outcome.ok, set_dev_baud (push_frame s 15 code) baud))) := by
  constructor
  · intro h
    obtain ⟨h1, h2, h3, h4, h5⟩ := h
    have hbc : baud_to_code baud = none := by
      unfold baud_to_code
      rw [if_neg h1, if_neg h2, if_neg h3, if_neg h4, if_neg h5]
    unfold PacketSerial.set_baud_rate
    rw [hbc]
  · intro code hv
    rcases hv with ⟨rfl, rfl⟩ | ⟨rfl, rfl⟩ | ⟨rfl, rfl⟩ | ⟨rfl, rfl⟩ | ⟨rfl, rfl⟩ <;>
      exact sbr_valid s _ _ (by decide)

/-- C5 witness: on concrete states, baud 300 is rejected with no write,
baud 9600 writes code 2 and then reconfigures the transport, and a failing
frame write leaves the state (so the baud rate) untouched. -/
theorem set_baud_rate_validates_and_reconfigures_witness :
    s0.set_baud_rate 300 = (Outcome.err (Error.invalidInput "invalid baud rate"), s0) ∧
    s0.set_baud_rate 9600 = (Outcome.ok, set_dev_baud (push_frame s0 15 2) 9600) ∧
    sFail.set_baud_rate 9600 = (Outcome.err (Error.transport "write error"), sFail) := by
  refine ⟨(set_baud_rate_validates_and_reconfigures s0 300).1 (by omega), ?_, ?_⟩
  · exact ((set_baud_rate_validates_and_reconfigures s0 9600).2 2 (by omega)).2 rfl rfl
  · exact ((set_baud_rate_validates_and_reconfigures sFail 9600).2 2 (by omega)).1 rfl

/-- C8: for every units byte, the packet encoder's set_min_voltage and
set_max_voltage (modelled from the spec, with the command code a parameter
since the spec leaves it open) succeed on a healthy transport and write a
frame whose data byte is units unchanged. -/
theorem set_voltage_identity_mapping (s : PacketSerial) (cmd units : Nat)
    (_hu : units < 256) (hw : s.dev.failWrites = false) :
    s.set_min_voltage cmd units = (Outcome.ok, push_frame s cmd units) ∧
    s.set_max_voltage cmd units = (Outcome.ok, push_frame s cmd units) :=
  ⟨write_ok s cmd units hw, write_ok s cmd units hw⟩

/-- C8 witness: at a concrete healthy state, units 200 is written verbatim
as the data byte. -/
theorem set_voltage_identity_mapping_witness :
    s0.set_min_voltage 2 200 = (Outcome.ok, push_frame s0 2 200) :=
  (set_voltage_identity_mapping s0 2 200 (by norm_num) rfl).1

/-- Helper: the frame write itself never panics. -/
theorem write_not_panicked (s : PacketSerial) (c d : Nat) :
    (s.write c d).1 ≠ Outcome.panicked := by
  cases hfw : s.dev.failWrites with
  | false =>
      rw [write_ok s c d hfw]
      simp
  | true =>
      rw [write_fail s c d hfw]
      simp

/-- Helper: the u16 map_range with source range (0, 12700) never hits the
zero divisor. -/
theorem mr16_timeout_ne_none (u : Nat) :
    map_range_u16 (0, MAX_SERIAL_TIMEOUT_MS) (0, 127) u ≠ none := by
  unfold map_range_u16
  norm_num [sub16, MAX_SERIAL_TIMEOUT_MS]
  simp

/-- Helper: the u8 map_range with source range (0, 255) never hits the zero
divisor. -/
theorem mr8_255_ne_none (t : Nat × Nat) (x : Nat) :
    map_range_u8 (0, 255) t x ≠ none := by
  unfold map_range_u8
  norm_num [sub8]
  simp

/-- Helper: the baud tail never panics. -/
theorem wtsb_not_panicked (s : PacketSerial) (data baud : Nat) :
    (write_then_set_baud s data baud).1 ≠ Outcome.panicked := by
  cases hfw : s.dev.failWrites with
  | true =>
      rw [wtsb_write_fail s data baud hfw]
      simp
  | false =>
      cases hsb : s.dev.failSetBaud with
      | false =>
          rw [wtsb_ok s data baud hfw hsb]
          simp
      | true =>
          unfold write_then_set_baud
          rw [write_ok s 15 data hfw]
          have hsb1 : (push_frame s 15 data).dev.failSetBaud = true := by
            simp [push_frame, hsb]
          simp only [SabertoothSerial.set_baud_rate, hsb1, if_true]
          simp

/-- C9: map_range contains an unguarded division whose divisor is the
source-range width (it panics exactly when that width is zero), but every
command operation of the encoder only ever calls it with the fixed
nonzero-width source ranges (0, 12700) and (0, 255), so the
division-by-zero outcome is unreachable from the public command surface. -/
theorem map_range_division_unreachable (s : PacketSerial)
    (ms baud rate deadband cmd units : Nat) (v : Int) :
    (∀ f t : Nat × Nat, ∀ x : Nat, map_range_u8 f t x = none ↔ sub8 f.2 f.1 = 0) ∧
    (∀ f t : Nat × Nat, ∀ x : Nat, map_range_u16 f t x = none ↔ sub16 f.2 f.1 = 0) ∧
    (s.set_serial_timeout ms).1 ≠ Outcome.panicked ∧
    (s.set_baud_rate baud).1 ≠ Outcome.panicked ∧
    (s.set_ramping rate).1 ≠ Outcome.panicked ∧
    (s.set_deadband deadband).1 ≠ Outcome.panicked ∧
    (s.drive_m1 v).1 ≠ Outcome.panicked ∧
    (s.drive_m2 v).1 ≠ Outcome.panicked ∧
    (s.drive_mixed v).1 ≠ Outcome.panicked ∧
    (s.turn_mixed v).1 ≠ Outcome.panicked ∧
    (s.set_min_voltage cmd units).1 ≠ Outcome.panicked ∧
    (s.set_max_voltage cmd units).1 ≠ Outcome.panicked := by
  refine ⟨?_, ?_, ?_, ?_, ?_, ?_, ?_, ?_, ?_, ?_, ?_, ?_⟩
  · intro f t x
    unfold map_range_u8
    split <;> simp_all
  · intro f t x
    unfold map_range_u16
    split <;> simp_all
  · rw [set_serial_timeout_eq]
    split
    · simp
    · rcases hmr : map_range_u16 (0, MAX_SERIAL_TIMEOUT_MS) (0, 127)
          (if 0 < ms ∧ ms < 100 then 1 else ms / 100) with _ | data
      · exact absurd hmr (mr16_timeout_ne_none _)
      · exact write_not_panicked s 14 (data % 256)
  · unfold PacketSerial.set_baud_rate
    rcases hbc : baud_to_code baud with _ | data
    · simp
    · exact wtsb_not_panicked s data baud
  · unfold PacketSerial.set_ramping
    rcases hmr : map_range_u8 (0, 255) (0, 80) rate with _ | data
    · exact absurd hmr (mr8_255_ne_none _ _)
    · exact write_not_panicked s 16 data
  · unfold PacketSerial.set_deadband
    rcases hmr : map_range_u8 (0, 255) (0, 127) deadband with _ | data
    · exact absurd hmr (mr8_255_ne_none _ _)
    · exact write_not_panicked s 17 data
  · unfold PacketSerial.drive_m1 PacketSerial.write_motor_command
    split
    · exact write_not_panicked s 0 _
    · exact write_not_panicked s 1 _
  · unfold PacketSerial.drive_m2 PacketSerial.write_motor_command
    split
    · exact write_not_panicked s 4 _
    · exact write_not_panicked s 5 _
  · unfold PacketSerial.drive_mixed PacketSerial.write_motor_command
    split
    · exact write_not_panicked s 8 _
    · exact write_not_panicked s 9 _
  · unfold PacketSerial.turn_mixed PacketSerial.write_motor_command
    split
    · exact write_not_panicked s 10 _
    · exact write_not_panicked s 11 _
  · exact write_not_panicked s cmd units
  · exact write_not_panicked s cmd units

/-- C9 witness: at a concrete state and concrete inputs, neither
set_ramping nor set_serial_timeout reaches the division-by-zero panic. -/
theorem map_range_division_unreachable_witness :
    (s0.set_ramping 255).1 ≠ Outcome.panicked ∧
    (s0.set_serial_timeout 250).1 ≠ Outcome.panicked := by
  have h := map_range_division_unreachable s0 250 9600 255 255 2 200 0
  exact ⟨h.2.2.2.2.1, h.2.2.1⟩

/-- Helper: an operation returning the state unchanged preserves the
address invariant. -/
theorem pa_same (s : PacketSerial) (o : Outcome) : preserves_address s (o, s) :=
  ⟨rfl, Or.inl rfl⟩

/-- Helper: the frame write preserves the address invariant. -/
theorem pa_write (s : PacketSerial) (c d : Nat) : preserves_address s (s.write c d) := by
  cases hfw : s.dev.failWrites with
  | false =>
      rw [write_ok s c d hfw]
      exact ⟨rfl, Or.inr ⟨c, d, checksum [s.address, c, d], by simp [push_frame]⟩⟩
  | true =>
      rw [write_fail s c d hfw]
      exact pa_same s _

/-- Helper: the baud tail preserves the address invariant. -/
theorem pa_wtsb (s : PacketSerial) (data baud : Nat) :
    preserves_address s (write_then_set_baud s data baud) := by
  cases hfw : s.dev.failWrites with
  | true =>
      rw [wtsb_write_fail s data baud hfw]
      exact pa_same s _
  | false =>
      cases hsb : s.dev.failSetBaud with
      | false =>
          rw [wtsb_ok s data baud hfw hsb]
          refine ⟨by simp [set_dev_baud, push_frame], Or.inr ⟨15, data, checksum [s.address, 15, data], ?_⟩⟩
          simp [set_dev_baud, push_frame]
      | true =>
          unfold write_then_set_baud
          rw [write_ok s 15 data hfw]
          have hsb1 : (push_frame s 15 data).dev.failSetBaud = true := by
            simp [push_frame, hsb]
          simp only [SabertoothSerial.set_baud_rate, hsb1, if_true]
          exact ⟨by simp [push_frame], Or.inr ⟨15, data, checksum [s.address, 15, data], by simp [push_frame]⟩⟩

/-- C10: no command operation changes the device address, whether it
succeeds or fails, and every frame any of them writes carries the
configured address as its first byte; with_address is the operation that
sets the address. -/
theorem address_only_changed_by_with_address (s : PacketSerial)
    (a ms baud rate deadband cmd units : Nat) (v : Int) :
    (s.with_address a).address = a ∧
    preserves_address s (s.set_serial_timeout ms) ∧
    preserves_address s (s.set_baud_rate baud) ∧
    preserves_address s (s.set_ramping rate) ∧
    preserves_address s (s.set_deadband deadband) ∧
    preserves_address s (s.drive_m1 v) ∧
    preserves_address s (s.drive_m2 v) ∧
    preserves_address s (s.drive_mixed v) ∧
    preserves_address s (s.turn_mixed v) ∧
    preserves_address s (s.set_min_voltage cmd units) ∧
    preserves_address s (s.set_max_voltage cmd units) := by
  refine ⟨rfl, ?_, ?_, ?_, ?_, ?_, ?_, ?_, ?_, ?_, ?_⟩
  · rw [set_serial_timeout_eq]
    split
    · exact pa_same s _
    · rcases hmr : map_range_u16 (0, MAX_SERIAL_TIMEOUT_MS) (0, 127)
          (if 0 < ms ∧ ms < 100 then 1 else ms / 100) with _ | data
      · exact pa_same s _
      · exact pa_write s 14 (data % 256)
  · unfold PacketSerial.set_baud_rate
    rcases hbc : baud_to_code baud with _ | data
    · exact pa_same s _
    · exact pa_wtsb s data baud
  · unfold PacketSerial.set_ramping
    rcases hmr : map_range_u8 (0, 255) (0, 80) rate with _ | data
    · exact pa_same s _
    · exact pa_write s 16 data
  · unfold PacketSerial.set_deadband
    rcases hmr : map_range_u8 (0, 255) (0, 127) deadband with _ | data
    · exact pa_same s _
    · exact pa_write s 17 data
  · unfold PacketSerial.drive_m1 PacketSerial.write_motor_command
    split
    · exact pa_write s 0 _
    · exact pa_write s 1 _
  · unfold PacketSerial.drive_m2 PacketSerial.write_motor_command
    split
    · exact pa_write s 4 _
    · exact pa_write s 5 _
  · unfold PacketSerial.drive_mixed PacketSerial.write_motor_command
    split
    · exact pa_write s 8 _
    · exact pa_write s 9 _
  · unfold PacketSerial.turn_mixed PacketSerial.write_motor_command
    split
    · exact pa_write s 10 _
    · exact pa_write s 11 _
  · exact pa_write s cmd units
  · exact pa_write s cmd units

/-- C10 witness: at a concrete state, with_address sets the address to 129
and drive_m1(-128) leaves the address unchanged. -/
theorem address_only_changed_by_with_address_witness :
    (s0.with_address 129).address = 129 ∧
    (s0.drive_m1 (-128)).2.address = s0.address := by
  have h := address_only_changed_by_with_address s0 129 250 9600 10 10 2 200 (-128)
  exact ⟨h.1, (h.2.2.2.2.2.1).1⟩

end Saberrs
